import Mathlib

/-!
Verification of the xpath-builder library: a shallow embedding of
src/xpath_builder/utils.py, src/xpath_builder/core.py,
src/xpath_builder/shortcuts.py and src/examples/find_ad_classes.py,
with theorems settling the specification claims about quoting, the
set-operation builders, operator validation, attribute-name predicates,
numeric literal rendering, union forms and validation behaviour.

Python strings are modelled as Lean String values; raising an exception is
modelled as Except.error; keyword tuples (*tokens) are modelled as lists.
-/

namespace XPathBuilder

/-- Membership of a single character in a string, over the character data
(models the Python test `c in s` for a one-character c, the only form the
source uses). -/
def str_has_char (s : String) (c : Char) : Bool := s.data.contains c

/-- Splits character data at every occurrence of the separator character;
the separator is consumed and empty chunks are kept, matching Python
str.split with a one-character separator. -/
def split_char_list (c : Char) : List Char → List (List Char)
  | [] => [[]]
  | ch :: rest =>
    let r := split_char_list c rest
    if ch == c then [] :: r
    else
      match r with
      | [] => [[ch]]
      | hd :: tl => (ch :: hd) :: tl

/-- Models Python s.split(sep) for a one-character separator, the only form
the source uses. -/
def py_split (s : String) (c : Char) : List String :=
  (split_char_list c s.data).map String.mk

/-- Models Python str.lower, used by the case-insensitive options
(character-wise lowering). -/
def py_lower (s : String) : String := String.mk (s.data.map Char.toLower)

/-- Embeds utils.py quote: XPath string-literal quoting.  The Python joiner
string is a comma, a single-quoted double-quote character, and a comma. -/
def quote (s : String) : String :=
  if str_has_char s '\x27' = false then "\x27" ++ s ++ "\x27"
  else if str_has_char s '"' = false then "\"" ++ s ++ "\""
  else
    let parts := (py_split s '\x27').map (fun chunk => "\"" ++ chunk ++ "\"")
    let glued := String.intercalate ",\x27\"\x27," parts
    "concat(" ++ glued ++ ")"

/-- The characters of the Python specials string in utils.py re_escape_xsd
(dot, caret, dollar, bar, question mark, star, plus, parentheses, square
brackets, curly brackets, backslash, dash). -/
def xsd_specials : List Char :=
  ['.', '^', '$', '|', '?', '*', '+', '(', ')', '[', ']', '\x7b', '\x7d', '\\', '-']

/-- Embeds utils.py re_escape_xsd: escape a literal for XML Schema regex. -/
def re_escape_xsd (lit : String) : String :=
  String.join (lit.data.map (fun ch =>
    if xsd_specials.contains ch then "\\" ++ ch.toString else ch.toString))

/-- Models the optional validation backends probed at import time in
utils.py: the two availability flags and each engine behaviour on an
expression (ok, or error with the engine message). -/
structure ValidationEnv where
  elementpath_available : Bool
  lxml_available : Bool
  elementpath_parse : String → Except String Unit
  lxml_xpath : String → Except String Unit

/-- Embeds utils.py validate_xpath; raising SyntaxError is modelled as
Except.error carrying the message. -/
def validate_xpath (env : ValidationEnv) (expr : String) : Except String Unit :=
  if env.elementpath_available then
    match env.elementpath_parse expr with
    | Except.ok _ => Except.ok ()
    | Except.error e => Except.error ("XPath (elementpath) syntax error: " ++ e)
  else if env.lxml_available then
    match env.lxml_xpath expr with
    | Except.ok _ => Except.ok ()
    | Except.error e => Except.error ("XPath (lxml) syntax error: " ++ e)
  else Except.ok ()

/-- Embeds core.py Pred: wrapper around a boolean XPath expression string. -/
structure Pred where
  expr : String
  deriving DecidableEq

def Pred.compile (p : Pred) : String := p.expr

/-- Embeds Pred.__and__. -/
def Pred.and (p other : Pred) : Pred :=
  Pred.mk ("(" ++ p.expr ++ ") and (" ++ other.expr ++ ")")

/-- Embeds Pred.__or__. -/
def Pred.or (p other : Pred) : Pred :=
  Pred.mk ("(" ++ p.expr ++ ") or (" ++ other.expr ++ ")")

/-- Embeds Pred.neg. -/
def Pred.neg (p : Pred) : Pred := Pred.mk ("not(" ++ p.expr ++ ")")

/-- Embeds core.py _SetBuilder: any_of / all_of / none_of over a per-token
predicate factory. -/
structure SetBuilder where
  make_one : String → String

def SetBuilder.any_of (b : SetBuilder) (tokens : List String) : Pred :=
  if tokens.isEmpty then Pred.mk "false()"
  else Pred.mk (String.intercalate " or " (tokens.map b.make_one))

def SetBuilder.all_of (b : SetBuilder) (tokens : List String) : Pred :=
  if tokens.isEmpty then Pred.mk "true()"
  else Pred.mk (String.intercalate " and " (tokens.map b.make_one))

def SetBuilder.none_of (b : SetBuilder) (tokens : List String) : Pred :=
  if tokens.isEmpty then Pred.mk "true()"
  else (b.any_of tokens).neg

/-- Embeds core.py Ops: generic comparator builder for an XPath LHS. -/
structure Ops (α : Type) where
  lhs : String
  to_lit : α → String

/-- Embeds Ops.cmp; the ValueError raise is modelled as Except.error. -/
def Ops.cmp {α : Type} (o : Ops α) (op : String) (v : α) : Except String Pred :=
  if op ∉ ["=", "!=", "<", "<=", ">", ">="] then Except.error "Invalid comparator"
  else Except.ok (Pred.mk (o.lhs ++ " " ++ op ++ " " ++ o.to_lit v))

def Ops.eq {α : Type} (o : Ops α) (v : α) : Except String Pred := o.cmp "=" v

/-- Models the Python float values flowing into attr_num exactly as the code
classifies them: not-a-number, the two infinities, or a finite value carrying
its decimal text (the result of Python str on it). -/
inductive PyFloat where
  | nan : PyFloat
  | inf : PyFloat
  | ninf : PyFloat
  | finite : String → PyFloat
  deriving DecidableEq

/-- Models the IEEE self-inequality test `v != v`, true exactly on NaN. -/
def PyFloat.ne_self : PyFloat → Bool
  | PyFloat.nan => true
  | _ => false

/-- Models the test `v == float("inf")` (false on NaN and on finite values). -/
def PyFloat.is_pos_inf : PyFloat → Bool
  | PyFloat.inf => true
  | _ => false

/-- Models the test `v == float("-inf")`. -/
def PyFloat.is_neg_inf : PyFloat → Bool
  | PyFloat.ninf => true
  | _ => false

/-- Models Python str on a float; on the finite constructor it is the carried
decimal text. -/
def PyFloat.str : PyFloat → String
  | PyFloat.nan => "nan"
  | PyFloat.inf => "inf"
  | PyFloat.ninf => "-inf"
  | PyFloat.finite s => s

/-- Embeds the to_lit closure of core.py attr_num. -/
def attr_num_to_lit (v : PyFloat) : String :=
  if v.ne_self then "NaN"
  else if v.is_pos_inf then "Infinity"
  else if v.is_neg_inf then "-Infinity"
  else v.str

/-- Embeds core.py attr_num. -/
def attr_num (name : String) : Ops PyFloat :=
  Ops.mk ("number(@" ++ name ++ ")") attr_num_to_lit

/-- Embeds core.py _AttrNameOps: attribute NAME matching. -/
structure AttrNameOps where
  ci : Bool
  deriving DecidableEq

/-- Embeds _AttrNameOps._lname. -/
def AttrNameOps.lname (a : AttrNameOps) (var : String) : String :=
  if a.ci then "lower-case(local-name(" ++ var ++ "))"
  else "local-name(" ++ var ++ ")"

/-- Embeds the _AttrNameOps.equals property. -/
def AttrNameOps.equals (a : AttrNameOps) : SetBuilder :=
  SetBuilder.mk (fun name =>
    let x := a.lname "$a"
    let target := if a.ci then py_lower name else name
    "some $a in @* satisfies " ++ x ++ " = " ++ quote target)

/-- Embeds core.py _AttrOps: attribute predicate builder entry point. -/
structure AttrOps where
  name : String
  ci : Bool
  deriving DecidableEq

/-- Embeds the _AttrOps.contains property. -/
def AttrOps.contains (a : AttrOps) : SetBuilder :=
  let base := if a.ci then "lower-case(@" ++ a.name ++ ")" else "@" ++ a.name
  SetBuilder.mk (fun tok =>
    let needle := if a.ci then py_lower tok else tok
    "contains(" ++ base ++ ", " ++ quote needle ++ ")")

/-- Embeds the _AttrOps.contains_tokens property. -/
def AttrOps.contains_tokens (a : AttrOps) : SetBuilder :=
  let src := "concat(\x27 \x27, normalize-space(@" ++ a.name ++ "), \x27 \x27)"
  let flags := if a.ci then ", \x27i\x27" else ""
  SetBuilder.mk (fun tok =>
    let pat := "\\s" ++ re_escape_xsd tok ++ "\\s"
    "matches(" ++ src ++ ", " ++ quote pat ++ flags ++ ")")

/-- Embeds the _AttrOps.startswith property. -/
def AttrOps.startswith (a : AttrOps) : SetBuilder :=
  let left := if a.ci then "lower-case(@" ++ a.name ++ ")" else "@" ++ a.name
  SetBuilder.mk (fun tok =>
    let right := quote (if a.ci then py_lower tok else tok)
    "starts-with(" ++ left ++ ", " ++ right ++ ")")

/-- Embeds the _AttrOps.endswith property. -/
def AttrOps.endswith (a : AttrOps) : SetBuilder :=
  let left := if a.ci then "lower-case(@" ++ a.name ++ ")" else "@" ++ a.name
  SetBuilder.mk (fun tok =>
    let right := quote (if a.ci then py_lower tok else tok)
    "ends-with(" ++ left ++ ", " ++ right ++ ")")

/-- Embeds the _AttrOps.has_name property; the ValueError raise is modelled
as Except.error carrying the message. -/
def AttrOps.has_name (a : AttrOps) : Except String AttrNameOps :=
  if a.name ≠ "*" then
    Except.error "attr(name).has_name is only meaningful for attr(\x27*\x27)"
  else Except.ok (AttrNameOps.mk a.ci)

/-- Embeds _AttrOps.matches. -/
def AttrOps.matches (a : AttrOps) (flags : String) : SetBuilder :=
  let fl := if flags ≠ "" then ", " ++ quote flags else ""
  SetBuilder.mk (fun pattern =>
    "matches(@" ++ a.name ++ ", " ++ quote pattern ++ fl ++ ")")

/-- Embeds Pred.attr. -/
def Pred.attr (name : String) (case_insensitive : Bool) : AttrOps :=
  AttrOps.mk name case_insensitive

/-- Embeds the static Pred.union. -/
def Pred.union (preds : List Pred) : Pred :=
  if preds.isEmpty then Pred.mk "false()"
  else Pred.mk (String.intercalate " or " (preds.map (fun p => "(" ++ p.compile ++ ")")))

/-- Embeds core.py Path: wrapper around a location-path string. -/
structure Path where
  expr : String
  deriving DecidableEq

def Path.compile (p : Path) : String := p.expr

/-- Embeds Path.where. -/
def Path.where_ (p : Path) (pred : Pred) : Path :=
  Path.mk (p.expr ++ "[" ++ pred.compile ++ "]")

/-- Embeds Path.validate. -/
def Path.validate (env : ValidationEnv) (p : Path) : Except String Unit :=
  validate_xpath env p.expr

/-- Embeds the static Path.union. -/
def Path.union (paths : List Path) : Path :=
  if paths.isEmpty then Path.mk "false()"
  else Path.mk (String.intercalate " | " (paths.map (fun p => "(" ++ p.compile ++ ")")))

/-- Embeds core.py Node: wrapper around a node-test string. -/
structure Node where
  test : String
  deriving DecidableEq

def Node.compile (n : Node) : String := n.test

/-- Embeds Node.__or__. -/
def Node.or (n other : Node) : Path :=
  Path.mk (n.test ++ " | " ++ other.test)

/-- Embeds Node.any. -/
def Node.any (n : Node) : Path := Path.mk ("//" ++ n.test)

/-- Embeds Node.where. -/
def Node.where_ (n : Node) (pred : Pred) : Path :=
  (Path.mk n.test).where_ pred

/-- Embeds shortcuts.py STAR. -/
def STAR : Node := Node.mk "*"

/-- The fixed keyword list of src/examples/find_ad_classes.py. -/
def ad_keywords : List String :=
  ["ads", "ad", "advert", "advertisement", "sponsored", "promo",
   "affiliate", "tracking", "analytics"]

/-- Embeds src/examples/find_ad_classes.py ad_class_selector. -/
def ad_class_selector : Path :=
  (STAR.any).where_ ((Pred.attr "class" false).contains.any_of ad_keywords)

/-- Claim C1: evaluating quote at the input a-apostrophe-b-doublequote, which
contains both quote characters, shows that the code glues the chunks with the
single-quoted double-quote literal, not with the double-quoted apostrophe the
claim requires, so re-joining the concat arguments yields a double quote
where the input had an apostrophe. -/
theorem quote_c1_both_quotes_separator :
    quote "a\x27b\"" = "concat(\"a\",\x27\"\x27,\"b\"\")" ∧
    quote "a\x27b\"" ≠ "concat(\"a\",\"\x27\",\"b\"\")" := by
  exact ⟨by decide, by decide⟩

/-- Claim C2: the Set Builder maps the empty token list to the boolean
identities false(), true(), true() for any_of, all_of, none_of, and on any
non-empty token list none_of is textually not(any_of). -/
theorem set_builder_aggregation (m : String → String) (ts : List String)
    (h : ts ≠ []) :
    (SetBuilder.mk m).any_of [] = Pred.mk "false()" ∧
    (SetBuilder.mk m).all_of [] = Pred.mk "true()" ∧
    (SetBuilder.mk m).none_of [] = Pred.mk "true()" ∧
    (SetBuilder.mk m).none_of ts =
      Pred.mk ("not(" ++ ((SetBuilder.mk m).any_of ts).expr ++ ")") := by
  refine ⟨rfl, rfl, rfl, ?_⟩
  cases ts with
  | nil => exact absurd rfl h
  | cons t rest => rfl

/-- Witness for C2 at a concrete factory and one-token list. -/
theorem set_builder_aggregation_witness :
    (SetBuilder.mk (fun t => t)).none_of ["a"] =
      Pred.mk ("not(" ++ ((SetBuilder.mk (fun t => t)).any_of ["a"]).expr ++ ")") :=
  (set_builder_aggregation (fun t => t) ["a"] (by decide)).2.2.2

/-- Claim C3: Ops.cmp fails with the Invalid-Operator error exactly when the
operator is outside the six comparison operators, and on a valid operator it
returns the predicate lhs-space-op-space-literal. -/
theorem ops_cmp_operator_check (α : Type) (lhs : String) (tl : α → String)
    (op : String) (v : α) :
    ((∃ e, (Ops.mk lhs tl).cmp op v = Except.error e) ↔
      op ∉ ["=", "!=", "<", "<=", ">", ">="]) ∧
    (op ∈ ["=", "!=", "<", "<=", ">", ">="] →
      (Ops.mk lhs tl).cmp op v =
        Except.ok (Pred.mk (lhs ++ " " ++ op ++ " " ++ tl v))) := by
  by_cases hmem : op ∈ ["=", "!=", "<", "<=", ">", ">="]
  · constructor
    · constructor
      · rintro ⟨e, he⟩
        rw [Ops.cmp, if_neg (not_not_intro hmem)] at he
        exact absurd he (by simp)
      · intro hno
        exact absurd hmem hno
    · intro _
      rw [Ops.cmp, if_neg (not_not_intro hmem)]
  · constructor
    · constructor
      · intro _
        exact hmem
      · intro _
        exact ⟨"Invalid comparator", by rw [Ops.cmp, if_pos hmem]⟩
    · intro h
      exact absurd h hmem

/-- Witness for C3 at a valid and an invalid concrete operator. -/
theorem ops_cmp_operator_check_witness :
    (Ops.mk "@x" (fun s : String => s)).cmp "=" "v" =
      Except.ok (Pred.mk ("@x" ++ " " ++ "=" ++ " " ++ "v")) ∧
    (∃ e, (Ops.mk "@x" (fun s : String => s)).cmp "~" "v" = Except.error e) :=
  ⟨(ops_cmp_operator_check String "@x" (fun s => s) "=" "v").2 (by decide),
   ((ops_cmp_operator_check String "@x" (fun s => s) "~" "v").1).mpr (by decide)⟩

/-- Claim C4: has_name fails with the Invalid-Usage error exactly when the
attribute name is not the wildcard star, and on the wildcard it returns the
attribute-name builder carrying the same case flag. -/
theorem attr_has_name_wildcard_check (n : String) (ci : Bool) :
    ((∃ e, (AttrOps.mk n ci).has_name = Except.error e) ↔ n ≠ "*") ∧
    (n = "*" → (AttrOps.mk n ci).has_name = Except.ok (AttrNameOps.mk ci)) := by
  by_cases hstar : n = "*"
  · constructor
    · constructor
      · rintro ⟨e, he⟩
        rw [AttrOps.has_name, if_neg (not_not_intro hstar)] at he
        exact absurd he (by simp)
      · intro hne
        exact absurd hstar hne
    · intro _
      rw [AttrOps.has_name, if_neg (not_not_intro hstar)]
  · constructor
    · constructor
      · intro _
        exact hstar
      · intro _
        exact ⟨_, by rw [AttrOps.has_name, if_pos hstar]⟩
    · intro h
      exact absurd h hstar

/-- Witness for C4 at the wildcard name with the case flag set. -/
theorem attr_has_name_wildcard_check_witness :
    (AttrOps.mk "*" true).has_name = Except.ok (AttrNameOps.mk true) :=
  (attr_has_name_wildcard_check "*" true).2 rfl

set_option maxRecDepth 100000 in
/-- Claim C5: the equality predicate of attr_num on attribute x renders NaN,
Infinity, -Infinity for the special values and the decimal text for every
other value, after the left-hand side number(@x). -/
theorem attr_num_eq_rendering (v : PyFloat) :
    (attr_num "x").eq v = Except.ok (Pred.mk ("number(@x) = " ++
      (match v with
       | PyFloat.nan => "NaN"
       | PyFloat.inf => "Infinity"
       | PyFloat.ninf => "-Infinity"
       | PyFloat.finite s => s))) := by
  cases v <;> rfl

set_option maxRecDepth 100000 in
/-- Claim C6: the ad-classification example selector compiles to the exact
text with one contains clause per keyword of the fixed nine-element list, in
order, joined by or, wrapped as a descendant wildcard step with one filter. -/
theorem ad_class_selector_compiled :
    ad_class_selector.compile =
      "//*[contains(@class, \x27ads\x27) or contains(@class, \x27ad\x27) or contains(@class, \x27advert\x27) or contains(@class, \x27advertisement\x27) or contains(@class, \x27sponsored\x27) or contains(@class, \x27promo\x27) or contains(@class, \x27affiliate\x27) or contains(@class, \x27tracking\x27) or contains(@class, \x27analytics\x27)]" ∧
    ad_class_selector.compile =
      "//*[" ++ String.intercalate " or "
        (ad_keywords.map (fun k => "contains(@class, \x27" ++ k ++ "\x27)")) ++ "]" ∧
    ad_keywords.length = 9 := by
  exact ⟨by decide, by decide, rfl⟩

/-- Claim C7: the union of two node tests is the two test texts joined by the
bar with no parentheses, the empty static path union is the false() literal,
and the non-empty static path union parenthesizes every operand and joins
with the bar. -/
theorem union_forms (a b : Node) (q : Path) (qs : List Path) :
    (Node.or a b).compile = a.test ++ " | " ++ b.test ∧
    (Path.union []).compile = "false()" ∧
    (Path.union (q :: qs)).compile =
      String.intercalate " | " ((q :: qs).map (fun p => "(" ++ p.compile ++ ")")) :=
  ⟨rfl, rfl, rfl⟩

/-- Claim C8: with no validation engine available validate_xpath accepts
every expression; an error can only arise from an available engine rejecting
the expression; Path.validate is exactly validate_xpath on the wrapped text;
and compiling a Path never consults validation. -/
theorem validate_xpath_advisory (env : ValidationEnv) (expr : String) (p : Path) :
    (env.elementpath_available = false → env.lxml_available = false →
      validate_xpath env expr = Except.ok ()) ∧
    (∀ e, validate_xpath env expr = Except.error e →
      (env.elementpath_available = true ∧
        ∃ e0, env.elementpath_parse expr = Except.error e0) ∨
      (env.lxml_available = true ∧
        ∃ e0, env.lxml_xpath expr = Except.error e0)) ∧
    Path.validate env p = validate_xpath env p.expr ∧
    Path.compile p = p.expr := by
  refine ⟨?_, ?_, rfl, rfl⟩
  · intro h1 h2
    rw [validate_xpath, if_neg (by rw [h1]; exact Bool.false_ne_true),
      if_neg (by rw [h2]; exact Bool.false_ne_true)]
  · intro e he
    rw [validate_xpath] at he
    by_cases h1 : env.elementpath_available = true
    · rw [if_pos h1] at he
      left
      refine ⟨h1, ?_⟩
      cases hp : env.elementpath_parse expr with
      | ok u => rw [hp] at he; exact absurd he (by simp)
      | error e0 => exact ⟨e0, rfl⟩
    · rw [if_neg h1] at he
      by_cases h2 : env.lxml_available = true
      · rw [if_pos h2] at he
        right
        refine ⟨h2, ?_⟩
        cases hp : env.lxml_xpath expr with
        | ok u => rw [hp] at he; exact absurd he (by simp)
        | error e0 => exact ⟨e0, rfl⟩
      · rw [if_neg h2] at he
        exact absurd he (by simp)

/-- Witness for C8: a malformed expression passes when neither engine is
available. -/
theorem validate_xpath_advisory_witness :
    validate_xpath
      (ValidationEnv.mk false false (fun _ => Except.ok ()) (fun _ => Except.ok ()))
      "//[[" = Except.ok () :=
  (validate_xpath_advisory
    (ValidationEnv.mk false false (fun _ => Except.ok ()) (fun _ => Except.ok ()))
    "//[[" (Path.mk "x")).1 rfl rfl

/-- Helper for re-grouping rendered text: two adjacent constant segments
merge into their concatenation. -/
theorem append_merge_left (a b c : String) (h : a ++ b = c) (s : String) :
    a ++ (b ++ s) = c ++ s := by
  rw [← String.append_assoc, h]

/-- Claim C9: under case-insensitivity the matches view still uses the raw
attribute reference with no lower-case wrapping and no automatic i flag,
appending the quoted flags argument only when non-empty, while contains,
startswith, endswith and contains_tokens all honour the flag. -/
theorem attr_matches_ignores_ci (name flags pattern tok : String) :
    (flags = "" →
      ((AttrOps.mk name true).matches flags).make_one pattern =
        "matches(@" ++ name ++ ", " ++ quote pattern ++ ")") ∧
    (flags ≠ "" →
      ((AttrOps.mk name true).matches flags).make_one pattern =
        "matches(@" ++ name ++ ", " ++ quote pattern ++ ", " ++ quote flags ++ ")") ∧
    ((AttrOps.mk name true).contains.make_one tok =
      "contains(" ++ "lower-case(@" ++ name ++ ")" ++ ", " ++ quote (py_lower tok) ++ ")") ∧
    ((AttrOps.mk name true).startswith.make_one tok =
      "starts-with(" ++ "lower-case(@" ++ name ++ ")" ++ ", " ++ quote (py_lower tok) ++ ")") ∧
    ((AttrOps.mk name true).endswith.make_one tok =
      "ends-with(" ++ "lower-case(@" ++ name ++ ")" ++ ", " ++ quote (py_lower tok) ++ ")") ∧
    ((AttrOps.mk name true).contains_tokens.make_one tok =
      "matches(" ++ "concat(\x27 \x27, normalize-space(@" ++ name ++ "), \x27 \x27)" ++
        ", " ++ quote ("\\s" ++ re_escape_xsd tok ++ "\\s") ++ ", \x27i\x27" ++ ")") := by
  refine ⟨?_, ?_, ?_, ?_, ?_, ?_⟩
  · intro h
    subst h
    simp [AttrOps.matches, String.append_empty, String.append_assoc]
  · intro h
    simp [AttrOps.matches, h, String.append_assoc]
  · simp [AttrOps.contains, String.append_assoc]
    exact append_merge_left _ _ _ (by decide) _
  · simp [AttrOps.startswith, String.append_assoc]
    exact append_merge_left _ _ _ (by decide) _
  · simp [AttrOps.endswith, String.append_assoc]
    exact append_merge_left _ _ _ (by decide) _
  · simp [AttrOps.contains_tokens, String.append_assoc]
    exact append_merge_left _ _ _ (by decide) _

/-- Witness for C9 at concrete attribute, pattern, token and both flag
shapes. -/
theorem attr_matches_ignores_ci_witness :
    ((AttrOps.mk "class" true).matches "").make_one "p" =
      "matches(@" ++ "class" ++ ", " ++ quote "p" ++ ")" ∧
    ((AttrOps.mk "class" true).matches "i").make_one "p" =
      "matches(@" ++ "class" ++ ", " ++ quote "p" ++ ", " ++ quote "i" ++ ")" :=
  ⟨(attr_matches_ignores_ci "class" "" "p" "t").1 rfl,
   (attr_matches_ignores_ci "class" "i" "p" "t").2.1 (by decide)⟩

/-- Helper for re-grouping rendered text: merging an opening parenthesis into
the preceding or-joiner segment. -/
theorem paren_or_merge (s : String) : ") or " ++ ("(" ++ s) = ") or (" ++ s :=
  append_merge_left _ _ _ (by decide) s

/-- Claim C10: on two or more tokens any_of and all_of join the raw per-token
strings with or / and, adding no parentheses around the operands; the
attribute-name equals builder hence yields unparenthesized some-satisfies
disjuncts; Pred.union, in contrast, parenthesizes every operand. -/
theorem set_builder_no_parens (m : String → String) (t1 t2 : String)
    (ts : List String) (p q : Pred) :
    (SetBuilder.mk m).any_of (t1 :: t2 :: ts) =
      Pred.mk (String.intercalate " or " ((t1 :: t2 :: ts).map m)) ∧
    (SetBuilder.mk m).all_of (t1 :: t2 :: ts) =
      Pred.mk (String.intercalate " and " ((t1 :: t2 :: ts).map m)) ∧
    (AttrNameOps.mk false).equals.any_of ["a", "b"] =
      Pred.mk ("some $a in @* satisfies local-name($a) = \x27a\x27 or some $a in @* satisfies local-name($a) = \x27b\x27") ∧
    Pred.union [p, q] =
      Pred.mk ("(" ++ p.expr ++ ")" ++ " or " ++ "(" ++ q.expr ++ ")") := by
  refine ⟨rfl, rfl, by decide, ?_⟩
  show Pred.mk ((("(" ++ p.expr ++ ")") ++ " or ") ++ ("(" ++ q.expr ++ ")")) = _
  simp [String.append_assoc, paren_or_merge]

end XPathBuilder
